import Mathlib

/-!
Verification of the alert dispatch subsystem (Go package `alerts`):
`NewManager`, `Manager.Register`, `Manager.Alert`, `Manager.shouldAlert`,
`Manager.isRateLimited`, `Manager.markAlerted`, `Manager.getAlertKey`,
`Manager.Cleanup`.

Modelling conventions (shallow embedding of the Go code):
- Wall-clock time is an explicit `now : Int` parameter, in nanoseconds
  (matching Go `time.Duration` units); `time.Since(t)` becomes `now - t`,
  and `time.Duration(sec) * time.Second` becomes `sec * nsPerSec`.
- The Go map `lastAlert map[string]time.Time` is an association list
  `List (String × Int)` with `mapLookup` / `mapInsert`; `Cleanup` filters it,
  which is exactly the observable effect of Go range-and-delete.
- `getAlertKey` in Go MD5-hashes the string
  `Sprintf("%s:%s:%s:%s", ServiceName, Error, Path, Method)` and hex-encodes
  the digest. The hex digest is a fixed deterministic function of that string,
  so the embedding uses the pre-image string itself as the key: every
  key-dependence property transfers verbatim, and key distinctness
  additionally assumes MD5 collision-freedom on the inputs at hand.
- Each registered alerter is fanned out with `go func(a){ if err := a.Send(p);
  err != nil { log } }`. `SendOutcome` models a provider send that returns nil
  (`ok`), returns an error (`fail`), or panics during execution (`panics`).
  The goroutine body contains no `recover`, so a panic inside it terminates
  the whole Go process. `fanOut` embeds one admissible schedule: the spawned
  goroutines run to completion in spawn order, and a crash stops the process,
  so goroutines after the panicking one never execute. `Alert` returns the
  unchanged-or-updated manager plus `none` when it returned before the
  fan-out loop, or `some (delivered, crashed)` recording which providers
  actually had `Send` invoked and whether the process crashed.
-/

def nsPerSec : Int := 1000000000

structure Config where
  Enabled : Bool
  MinLevel : String
  RateLimitSec : Int

structure Payload where
  ServiceName : String
  Level : String
  Error : String
  RequestID : String
  Method : String
  Path : String
  IP : String
  UserAgent : String
  File : String
  Line : Int
  Stack : List String
  Timestamp : Int

/-- Outcome of one provider `Send` call: returned nil, returned an error, or
panicked while executing. -/
inductive SendOutcome where
  | ok : SendOutcome
  | fail : String → SendOutcome
  | panics : String → SendOutcome

structure Alerter where
  Name : String
  Send : Payload → SendOutcome

structure Manager where
  config : Config
  alerters : List Alerter
  lastAlert : List (String × Int)

/-- Lookup in the association-list model of the Go map. -/
def mapLookup (k : String) : List (String × Int) → Option Int
  | [] => none
  | (k₁, v) :: rest => if k₁ = k then some v else mapLookup k rest

/-- Insert or overwrite in the association-list model of the Go map. -/
def mapInsert (k : String) (v : Int) : List (String × Int) → List (String × Int)
  | [] => [(k, v)]
  | (k₁, v₁) :: rest =>
    if k₁ = k then (k, v) :: rest else (k₁, v₁) :: mapInsert k v rest

/-- NewManager (Go): takes a `*Config`; if `RateLimitSec <= 0` it writes 300
through the pointer, then returns a manager holding that pointer, an empty
alerter slice and an empty `lastAlert` map. The second component of the
result is the value of the caller-supplied Config after the call (the
pointee), which the manager aliases. -/
def NewManager (config : Config) : Manager × Config :=
  let config₁ :=
    if config.RateLimitSec ≤ 0 then { config with RateLimitSec := 300 } else config
  ({ config := config₁, alerters := [], lastAlert := [] }, config₁)

/-- Register (Go): appends the alerter to the slice. -/
def Manager.Register (m : Manager) (a : Alerter) : Manager :=
  { m with alerters := m.alerters ++ [a] }

/-- levelPriority (Go): the literal map built inside `shouldAlert`; a Go map
lookup of an absent key yields the zero value 0. -/
def levelPriority (level : String) : Nat :=
  if level = "WARN" then 1
  else if level = "ERROR" then 2
  else if level = "CRITICAL" then 3
  else 0

/-- shouldAlert (Go): `currentPriority >= minPriority`. -/
def Manager.shouldAlert (m : Manager) (level : String) : Bool :=
  decide (levelPriority m.config.MinLevel ≤ levelPriority level)

/-- getAlertKey (Go): `Sprintf("%s:%s:%s:%s", ServiceName, Error, Path,
Method)`; the MD5 hex digest applied on top in Go is elided (see the header
comment). The Go receiver `m` is unused by the method body. -/
def getAlertKey (p : Payload) : String :=
  p.ServiceName ++ ":" ++ p.Error ++ ":" ++ p.Path ++ ":" ++ p.Method

/-- isRateLimited (Go): absent key means not rate-limited; otherwise
`time.Since(lastTime) < time.Duration(RateLimitSec)*time.Second`. -/
def Manager.isRateLimited (m : Manager) (now : Int) (p : Payload) : Bool :=
  match mapLookup (getAlertKey p) m.lastAlert with
  | none => false
  | some lastTime => decide (now - lastTime < m.config.RateLimitSec * nsPerSec)

/-- markAlerted (Go): `m.lastAlert[key] = time.Now()`. -/
def Manager.markAlerted (m : Manager) (now : Int) (p : Payload) : Manager :=
  { m with lastAlert := mapInsert (getAlertKey p) now m.lastAlert }

/-- fanOut: the spawn-order schedule of the `go func` loop in `Alert`
(see the header comment). Returns the names of alerters whose `Send` was
actually invoked, and whether a panic crashed the process (there is no
`recover` in the goroutine body, so a panic kills the whole program and the
remaining goroutines never run under this schedule). -/
def fanOut (alerters : List Alerter) (p : Payload) : List String × Bool :=
  match alerters with
  | [] => ([], false)
  | a :: rest =>
    match a.Send p with
    | SendOutcome.panics _ => ([a.Name], true)
    | _ =>
      let r := fanOut rest p
      (a.Name :: r.1, r.2)

/-- Alert (Go): return immediately when disabled or below the level
threshold; return immediately when rate-limited; otherwise record the
dispatch time and fan out to every registered alerter. `none` means the
fan-out loop was never reached. -/
def Manager.Alert (m : Manager) (now : Int) (p : Payload) :
    Manager × Option (List String × Bool) :=
  if !m.config.Enabled || !(m.shouldAlert p.Level) then (m, none)
  else if m.isRateLimited now p then (m, none)
  else
    let m₁ := m.markAlerted now p
    (m₁, some (fanOut m₁.alerters p))

/-- Cleanup (Go): delete every entry with
`time.Since(lastTime) > time.Duration(RateLimitSec*2)*time.Second`;
range-with-delete over a Go map keeps exactly the complementary entries. -/
def Manager.Cleanup (m : Manager) (now : Int) : Manager :=
  { m with
    lastAlert :=
      m.lastAlert.filter
        (fun kv => !(decide (now - kv.2 > m.config.RateLimitSec * 2 * nsPerSec))) }

/-! Helper lemmas shared by the claim theorems. -/

theorem getAlertKey_eq_of_fields (p₁ p₂ : Payload)
    (hs : p₁.ServiceName = p₂.ServiceName) (he : p₁.Error = p₂.Error)
    (hp : p₁.Path = p₂.Path) (hm : p₁.Method = p₂.Method) :
    getAlertKey p₁ = getAlertKey p₂ := by
  simp [getAlertKey, hs, he, hp, hm]

theorem mapLookup_insert_self (k : String) (v : Int) (l : List (String × Int)) :
    mapLookup k (mapInsert k v l) = some v := by
  induction l with
  | nil => simp [mapInsert, mapLookup]
  | cons kv rest ih =>
    by_cases h : kv.1 = k
    · simp [mapInsert, h, mapLookup]
    · simpa [mapInsert, h, mapLookup] using ih

theorem mapLookup_insert_ne (k₁ k : String) (v : Int) (l : List (String × Int))
    (h : k₁ ≠ k) : mapLookup k₁ (mapInsert k v l) = mapLookup k₁ l := by
  have h₂ : ¬ (k = k₁) := fun hh => h (Eq.symm hh)
  induction l with
  | nil => simp [mapInsert, mapLookup, h₂]
  | cons kv rest ih =>
    by_cases hk : kv.1 = k
    · subst hk
      simp [mapInsert, mapLookup, h₂]
    · simp [mapInsert, hk, mapLookup, ih]

theorem alert_dispatch (m : Manager) (now : Int) (p : Payload)
    (hen : m.config.Enabled = true) (hsa : m.shouldAlert p.Level = true)
    (hrl : m.isRateLimited now p = false) :
    m.Alert now p = (m.markAlerted now p, some (fanOut m.alerters p)) := by
  simp [Manager.Alert, hen, hsa, hrl, Manager.markAlerted]

theorem fanOut_no_panics (alerters : List Alerter) (p : Payload)
    (h : ∀ a ∈ alerters, ∀ msg, a.Send p ≠ SendOutcome.panics msg) :
    fanOut alerters p = (alerters.map Alerter.Name, false) := by
  induction alerters with
  | nil => simp [fanOut]
  | cons a rest ih =>
    have ha : ∀ msg, a.Send p ≠ SendOutcome.panics msg := h a (by simp)
    have hrest := ih (fun b hb msg => h b (by simp [hb]) msg)
    cases hsend : a.Send p with
    | panics msg => exact absurd hsend (ha msg)
    | ok => simp [fanOut, hsend, hrest]
    | fail e => simp [fanOut, hsend, hrest]

theorem getAlertKey_ne_of_path_ne (p₁ p₂ : Payload)
    (hs : p₁.ServiceName = p₂.ServiceName) (he : p₁.Error = p₂.Error)
    (hm : p₁.Method = p₂.Method) (hp : p₁.Path ≠ p₂.Path) :
    getAlertKey p₁ ≠ getAlertKey p₂ := by
  intro hkey
  apply hp
  unfold getAlertKey at hkey
  rw [hs, he, hm] at hkey
  have hd₀ := congrArg String.data hkey
  simp [String.data_append] at hd₀
  exact String.ext hd₀

theorem alert_suppressed (m : Manager) (now : Int) (p : Payload)
    (hrl : m.isRateLimited now p = true) : (m.Alert now p).2 = none := by
  by_cases hc : (!m.config.Enabled || !(m.shouldAlert p.Level)) = true
  · simp [Manager.Alert, hc]
  · simp [Manager.Alert, hc, hrl]

/-! Concrete fixtures used by counterexamples and witnesses. -/

def basePayload : Payload :=
  { ServiceName := "svc", Level := "ERROR", Error := "db down", RequestID := "r1",
    Method := "GET", Path := "/a", IP := "1.2.3.4", UserAgent := "ua",
    File := "f.go", Line := 10, Stack := [], Timestamp := 0 }

def okAlerter : Alerter := { Name := "okA", Send := fun _ => SendOutcome.ok }

def baseMgr : Manager :=
  { config := { Enabled := true, MinLevel := "WARN", RateLimitSec := 300 },
    alerters := [okAlerter], lastAlert := [] }

def disabledMgr : Manager :=
  { config := { Enabled := false, MinLevel := "WARN", RateLimitSec := 300 },
    alerters := [okAlerter], lastAlert := [] }

def cfgNeg : Config := { Enabled := true, MinLevel := "ERROR", RateLimitSec := -5 }

/-! Claim theorems. -/

/-- C5: whenever `config.enabled` is false, `Alert` is a no-op: the manager
(including the suppression state) is returned unchanged and the fan-out loop
is never reached, so no provider Send is invoked. -/
theorem C5_disabled_alert_noop (m : Manager) (now : Int) (p : Payload)
    (hdis : m.config.Enabled = false) : m.Alert now p = (m, none) := by
  simp [Manager.Alert, hdis]

theorem C5_disabled_alert_noop_witness :
    disabledMgr.config.Enabled = false ∧
    disabledMgr.Alert 0 basePayload = (disabledMgr, none) :=
  ⟨rfl, C5_disabled_alert_noop disabledMgr 0 basePayload rfl⟩

/-- C6: the alert key is a pure function of exactly
`(ServiceName, Error, Path, Method)`: two payloads agreeing on those four
fields get the same key whatever their RequestID, IP, UserAgent, File, Line,
Stack or Timestamp; determinism across runs holds because `getAlertKey` is a
function of the payload alone. -/
theorem C6_key_pure_in_four_fields (p₁ p₂ : Payload)
    (hs : p₁.ServiceName = p₂.ServiceName) (he : p₁.Error = p₂.Error)
    (hp : p₁.Path = p₂.Path) (hm : p₁.Method = p₂.Method) :
    getAlertKey p₁ = getAlertKey p₂ :=
  getAlertKey_eq_of_fields p₁ p₂ hs he hp hm

def altMetaPayload : Payload :=
  { basePayload with
    RequestID := "r2"
    IP := "5.6.7.8"
    UserAgent := "curl"
    File := "g.go"
    Line := 99
    Stack := ["frame"]
    Timestamp := 12345 }

theorem C6_key_pure_in_four_fields_witness :
    basePayload.RequestID ≠ altMetaPayload.RequestID ∧
    getAlertKey basePayload = getAlertKey altMetaPayload :=
  ⟨by decide, C6_key_pure_in_four_fields basePayload altMetaPayload rfl rfl rfl rfl⟩

/-- C9: `NewManager` returns a manager with an empty alerter registry and an
empty suppression map, and substitutes 300 for a non-positive
`RateLimitSec`. -/
theorem C9_newManager_init (c : Config) :
    (NewManager c).1.alerters = [] ∧ (NewManager c).1.lastAlert = [] ∧
    (c.RateLimitSec ≤ 0 → (NewManager c).1.config.RateLimitSec = 300) := by
  refine ⟨rfl, rfl, fun h => ?_⟩
  simp [NewManager, h]

theorem C9_newManager_init_witness :
    cfgNeg.RateLimitSec ≤ 0 ∧ (NewManager cfgNeg).1.alerters = [] ∧
    (NewManager cfgNeg).1.lastAlert = [] ∧
    (NewManager cfgNeg).1.config.RateLimitSec = 300 :=
  ⟨by decide, (C9_newManager_init cfgNeg).1, (C9_newManager_init cfgNeg).2.1,
    (C9_newManager_init cfgNeg).2.2 (by decide)⟩

/-- C10: `NewManager` writes 300 through the caller-supplied Config pointer
when `RateLimitSec <= 0` (the second component of the model result is the
pointee after the call), leaves `Enabled` and `MinLevel` untouched, leaves
the whole Config untouched when `RateLimitSec > 0`, and the manager aliases
the caller's Config. -/
theorem C10_newManager_mutates_caller_config (c : Config) :
    (c.RateLimitSec ≤ 0 →
      (NewManager c).2.RateLimitSec = 300 ∧ (NewManager c).2.Enabled = c.Enabled ∧
      (NewManager c).2.MinLevel = c.MinLevel) ∧
    (¬ c.RateLimitSec ≤ 0 → (NewManager c).2 = c) ∧
    (NewManager c).1.config = (NewManager c).2 := by
  refine ⟨fun h => ?_, fun h => ?_, rfl⟩ <;> simp [NewManager, h]

def cfgPos : Config := { Enabled := true, MinLevel := "ERROR", RateLimitSec := 60 }

theorem C10_newManager_mutates_caller_config_witness :
    (cfgNeg.RateLimitSec ≤ 0 ∧ (NewManager cfgNeg).2.RateLimitSec = 300 ∧
      (NewManager cfgNeg).2.Enabled = cfgNeg.Enabled ∧
      (NewManager cfgNeg).2.MinLevel = cfgNeg.MinLevel) ∧
    (NewManager cfgPos).2 = cfgPos ∧
    (NewManager cfgNeg).1.config = (NewManager cfgNeg).2 :=
  ⟨⟨by decide, (C10_newManager_mutates_caller_config cfgNeg).1 (by decide)⟩,
    (C10_newManager_mutates_caller_config cfgPos).2.1 (by decide),
    (C10_newManager_mutates_caller_config cfgNeg).2.2⟩

def dupMgr : Manager :=
  { config := { Enabled := true, MinLevel := "WARN", RateLimitSec := 300 },
    alerters := [okAlerter], lastAlert := [(getAlertKey basePayload, 0)] }

/-- C4: a suppressed duplicate (key recorded, within the window, on an
enabled manager passing the level filter) leaves the whole manager — in
particular the suppression map and the original recorded dispatch time —
unchanged, and reaches no provider. -/
theorem C4_suppressed_preserves_state (m : Manager) (now t : Int) (p : Payload)
    (hen : m.config.Enabled = true) (hsa : m.shouldAlert p.Level = true)
    (hlook : mapLookup (getAlertKey p) m.lastAlert = some t)
    (hwin : now - t < m.config.RateLimitSec * nsPerSec) :
    m.Alert now p = (m, none) ∧
    mapLookup (getAlertKey p) (m.Alert now p).1.lastAlert = some t := by
  have hrl : m.isRateLimited now p = true := by
    simp [Manager.isRateLimited, hlook, hwin]
  have halert : m.Alert now p = (m, none) := by
    simp [Manager.Alert, hen, hsa, hrl]
  exact ⟨halert, by rw [halert]; exact hlook⟩

theorem C4_suppressed_preserves_state_witness :
    dupMgr.config.Enabled = true ∧ dupMgr.shouldAlert basePayload.Level = true ∧
    mapLookup (getAlertKey basePayload) dupMgr.lastAlert = some 0 ∧
    ((1000 : Int) - 0 < dupMgr.config.RateLimitSec * nsPerSec) ∧
    dupMgr.Alert 1000 basePayload = (dupMgr, none) ∧
    mapLookup (getAlertKey basePayload) (dupMgr.Alert 1000 basePayload).1.lastAlert = some 0 := by
  refine ⟨rfl, by decide, by decide, by decide, ?_⟩
  exact C4_suppressed_preserves_state dupMgr 1000 0 basePayload rfl (by decide)
    (by decide) (by decide)

def unrecMinMgr : Manager :=
  { config := { Enabled := true, MinLevel := "DEBUG", RateLimitSec := 300 },
    alerters := [okAlerter], lastAlert := [] }

def unrecLevelPayload : Payload := { basePayload with Level := "INFO" }

/-- C2 counterexample: the claim says a payload with an unrecognized level is
silently dropped regardless of the configured minimum. With the unrecognized
minimum "DEBUG" (priority 0) and the unrecognized payload level "INFO"
(priority 0), `shouldAlert` computes `0 >= 0` and the payload is dispatched
to the provider — not dropped. -/
theorem C2_unrecognized_level_counterexample :
    levelPriority unrecLevelPayload.Level = 0 ∧
    (unrecMinMgr.Alert 0 unrecLevelPayload).2 = some (["okA"], false) := by
  exact ⟨rfl, rfl⟩

/-- C2 amended: providers are invoked only when the payload level priority
(WARN=1, ERROR=2, CRITICAL=3, otherwise 0) is at least the configured
minimum priority; a payload with an unrecognized level (priority 0) is
silently dropped whenever the configured minimum is recognized (priority at
least 1) — but not when the minimum itself is unrecognized, since `0 >= 0`
passes the filter. -/
theorem C2_priority_filter_amended (m : Manager) (now : Int) (p : Payload) :
    ((m.Alert now p).2.isSome = true →
      levelPriority m.config.MinLevel ≤ levelPriority p.Level) ∧
    (levelPriority p.Level = 0 → 1 ≤ levelPriority m.config.MinLevel →
      (m.Alert now p).2 = none) := by
  constructor
  · intro hd
    by_contra hnot
    have hsa : m.shouldAlert p.Level = false := by
      simp [Manager.shouldAlert]
      omega
    simp [Manager.Alert, hsa] at hd
  · intro h0 h1
    have hsa : m.shouldAlert p.Level = false := by
      simp [Manager.shouldAlert, h0]
      omega
    simp [Manager.Alert, hsa]

def errMinMgr : Manager :=
  { config := { Enabled := true, MinLevel := "ERROR", RateLimitSec := 300 },
    alerters := [okAlerter], lastAlert := [] }

theorem C2_priority_filter_amended_witness :
    (levelPriority baseMgr.config.MinLevel ≤ levelPriority basePayload.Level) ∧
    (errMinMgr.Alert 0 unrecLevelPayload).2 = none :=
  ⟨(C2_priority_filter_amended baseMgr 0 basePayload).1 (by decide),
    (C2_priority_filter_amended errMinMgr 0 unrecLevelPayload).2 (by decide) (by decide)⟩

/-- C8: `Cleanup` keeps exactly the entries whose recorded time is within
`2 × RateLimitSec` of now (an entry is removed iff strictly older than that
threshold), and if every entry is strictly older the suppression map ends up
empty. -/
theorem C8_cleanup_exact (m : Manager) (now : Int) :
    (∀ k t, (k, t) ∈ (m.Cleanup now).lastAlert ↔
      ((k, t) ∈ m.lastAlert ∧ now - t ≤ m.config.RateLimitSec * 2 * nsPerSec)) ∧
    ((∀ kv ∈ m.lastAlert, now - kv.2 > m.config.RateLimitSec * 2 * nsPerSec) →
      (m.Cleanup now).lastAlert = []) := by
  constructor
  · intro k t
    simp [Manager.Cleanup, List.mem_filter]
  · intro hall
    simp [Manager.Cleanup, List.filter_eq_nil_iff]
    intro k t hkt
    have hgt := hall (k, t) hkt
    simp at hgt
    linarith

def staleMgr : Manager :=
  { config := { Enabled := true, MinLevel := "WARN", RateLimitSec := 300 },
    alerters := [okAlerter],
    lastAlert := [("k1", 0), ("k2", 5), ("k3", 10)] }

theorem C8_cleanup_exact_witness :
    (("k1", (0 : Int)) ∈ (staleMgr.Cleanup 1000000000000).lastAlert ↔
      ((("k1", (0 : Int)) ∈ staleMgr.lastAlert) ∧
        (1000000000000 : Int) - 0 ≤ staleMgr.config.RateLimitSec * 2 * nsPerSec)) ∧
    ((∀ kv ∈ staleMgr.lastAlert,
        (1000000000000 : Int) - kv.2 > staleMgr.config.RateLimitSec * 2 * nsPerSec) →
      (staleMgr.Cleanup 1000000000000).lastAlert = []) ∧
    (staleMgr.Cleanup 1000000000000).lastAlert = [] :=
  ⟨(C8_cleanup_exact staleMgr 1000000000000).1 "k1" 0,
    (C8_cleanup_exact staleMgr 1000000000000).2,
    (C8_cleanup_exact staleMgr 1000000000000).2 (by decide)⟩

/-- C7: two payloads that differ in Path but agree on every other field have
distinct alert keys (their pre-hash key strings differ; distinctness of the
Go keys additionally assumes MD5 collision-freedom on these strings), and
recording a dispatch for either one never changes the rate-limit status of
the other, so the two calls are never mutually suppressed. -/
theorem C7_path_never_mutually_suppressed (p₁ p₂ : Payload)
    (hs : p₁.ServiceName = p₂.ServiceName) (_hl : p₁.Level = p₂.Level)
    (he : p₁.Error = p₂.Error) (_hr : p₁.RequestID = p₂.RequestID)
    (hm : p₁.Method = p₂.Method) (_hi : p₁.IP = p₂.IP)
    (_hu : p₁.UserAgent = p₂.UserAgent) (_hf : p₁.File = p₂.File)
    (_hli : p₁.Line = p₂.Line) (_hst : p₁.Stack = p₂.Stack)
    (_ht : p₁.Timestamp = p₂.Timestamp) (hp : p₁.Path ≠ p₂.Path) :
    getAlertKey p₁ ≠ getAlertKey p₂ ∧
    (∀ (m : Manager) (now₁ now₂ : Int),
      ((m.markAlerted now₁ p₁).isRateLimited now₂ p₂ = m.isRateLimited now₂ p₂) ∧
      ((m.markAlerted now₁ p₂).isRateLimited now₂ p₁ = m.isRateLimited now₂ p₁)) := by
  have hne := getAlertKey_ne_of_path_ne p₁ p₂ hs he hm hp
  refine ⟨hne, fun m now₁ now₂ => ⟨?_, ?_⟩⟩
  · simp [Manager.isRateLimited, Manager.markAlerted,
      mapLookup_insert_ne _ _ _ _ (Ne.symm hne)]
  · simp [Manager.isRateLimited, Manager.markAlerted,
      mapLookup_insert_ne _ _ _ _ hne]

def altPathPayload : Payload := { basePayload with Path := "/b" }

theorem C7_path_never_mutually_suppressed_witness :
    basePayload.Path ≠ altPathPayload.Path ∧
    getAlertKey basePayload ≠ getAlertKey altPathPayload ∧
    (baseMgr.markAlerted 0 basePayload).isRateLimited 5 altPathPayload =
      baseMgr.isRateLimited 5 altPathPayload :=
  ⟨by decide,
    (C7_path_never_mutually_suppressed basePayload altPathPayload rfl rfl rfl rfl
      rfl rfl rfl rfl rfl rfl rfl (by decide)).1,
    ((C7_path_never_mutually_suppressed basePayload altPathPayload rfl rfl rfl rfl
      rfl rfl rfl rfl rfl rfl rfl (by decide)).2 baseMgr 0 5).1⟩

/-- C1: two-call scenario on an enabled manager, both levels passing the
threshold, identical `(ServiceName, Error, Path, Method)`, and the key not
rate-limited at the first call (the pair is not preceded by a pending burst
for the same key): the first call dispatches to providers; a second call
strictly less than RateLimitSec later is suppressed before reaching any
provider, so exactly one of the two dispatches; a second call strictly more
than RateLimitSec later dispatches as well, so both do. -/
theorem C1_dedup_and_window_reset (m : Manager) (now₁ now₂ : Int) (p₁ p₂ : Payload)
    (hen : m.config.Enabled = true)
    (hsa₁ : m.shouldAlert p₁.Level = true) (hsa₂ : m.shouldAlert p₂.Level = true)
    (hs : p₁.ServiceName = p₂.ServiceName) (he : p₁.Error = p₂.Error)
    (hp : p₁.Path = p₂.Path) (hm : p₁.Method = p₂.Method)
    (hfresh : m.isRateLimited now₁ p₁ = false) :
    ((m.Alert now₁ p₁).2.isSome = true) ∧
    (now₂ - now₁ < m.config.RateLimitSec * nsPerSec →
      ((m.Alert now₁ p₁).1.Alert now₂ p₂).2 = none) ∧
    (m.config.RateLimitSec * nsPerSec < now₂ - now₁ →
      ((m.Alert now₁ p₁).1.Alert now₂ p₂).2.isSome = true) := by
  have hkey : getAlertKey p₂ = getAlertKey p₁ :=
    (getAlertKey_eq_of_fields p₁ p₂ hs he hp hm).symm
  have hA : m.Alert now₁ p₁ = (m.markAlerted now₁ p₁, some (fanOut m.alerters p₁)) :=
    alert_dispatch m now₁ p₁ hen hsa₁ hfresh
  have hlook :
      mapLookup (getAlertKey p₂) (mapInsert (getAlertKey p₁) now₁ m.lastAlert) =
        some now₁ := by
    rw [hkey]
    exact mapLookup_insert_self _ _ _
  refine ⟨by simp [hA], ?_, ?_⟩
  · intro hlt
    have hrl : (m.markAlerted now₁ p₁).isRateLimited now₂ p₂ = true := by
      simp [Manager.isRateLimited, Manager.markAlerted, hlook]
      exact hlt
    rw [hA]
    exact alert_suppressed _ now₂ p₂ hrl
  · intro hgt
    have hrl : (m.markAlerted now₁ p₁).isRateLimited now₂ p₂ = false := by
      simp [Manager.isRateLimited, Manager.markAlerted, hlook]
      linarith
    have hB := alert_dispatch (m.markAlerted now₁ p₁) now₂ p₂ hen hsa₂ hrl
    simp [hA, hB]

theorem C1_dedup_and_window_reset_witness :
    ((baseMgr.Alert 0 basePayload).2.isSome = true) ∧
    (((1 : Int) - 0 < baseMgr.config.RateLimitSec * nsPerSec →
      ((baseMgr.Alert 0 basePayload).1.Alert 1 basePayload).2 = none) ∧
      ((baseMgr.Alert 0 basePayload).1.Alert 1 basePayload).2 = none) ∧
    ((baseMgr.config.RateLimitSec * nsPerSec < (400 * nsPerSec : Int) - 0 →
      ((baseMgr.Alert 0 basePayload).1.Alert (400 * nsPerSec) basePayload).2.isSome = true) ∧
      ((baseMgr.Alert 0 basePayload).1.Alert (400 * nsPerSec) basePayload).2.isSome = true) :=
  ⟨(C1_dedup_and_window_reset baseMgr 0 1 basePayload basePayload rfl (by decide)
      (by decide) rfl rfl rfl rfl (by decide)).1,
    ⟨(C1_dedup_and_window_reset baseMgr 0 1 basePayload basePayload rfl (by decide)
        (by decide) rfl rfl rfl rfl (by decide)).2.1,
      (C1_dedup_and_window_reset baseMgr 0 1 basePayload basePayload rfl (by decide)
        (by decide) rfl rfl rfl rfl (by decide)).2.1 (by decide)⟩,
    ⟨(C1_dedup_and_window_reset baseMgr 0 (400 * nsPerSec) basePayload basePayload rfl
        (by decide) (by decide) rfl rfl rfl rfl (by decide)).2.2,
      (C1_dedup_and_window_reset baseMgr 0 (400 * nsPerSec) basePayload basePayload rfl
        (by decide) (by decide) rfl rfl rfl rfl (by decide)).2.2 (by decide)⟩⟩

def boomAlerter : Alerter :=
  { Name := "boomB", Send := fun _ => SendOutcome.panics "nil deref" }

def failAlerter : Alerter :=
  { Name := "failB", Send := fun _ => SendOutcome.fail "webhook unreachable" }

def okCAlerter : Alerter := { Name := "okC", Send := fun _ => SendOutcome.ok }

def panicMgr : Manager :=
  { config := { Enabled := true, MinLevel := "WARN", RateLimitSec := 300 },
    alerters := [okAlerter, boomAlerter, okCAlerter], lastAlert := [] }

def failMgr : Manager :=
  { config := { Enabled := true, MinLevel := "WARN", RateLimitSec := 300 },
    alerters := [okAlerter, failAlerter, okCAlerter], lastAlert := [] }

/-- C3 counterexample: the goroutine body in `Alert` has no recover, so under
the spawn-order schedule a provider whose Send panics crashes the process:
with the registry [okA, boomB (panics), okC] the alert is dispatched, okA and
boomB run, the process crashes (`true`), and okC — a registered provider —
never receives the alert. This refutes the claim that a failing Send
"panicking/raising inside its send path" never prevents delivery to another
provider and that Alert has no caller-visible failure mode. -/
theorem C3_fanout_isolation_counterexample :
    (panicMgr.Alert 0 basePayload).2 = some (["okA", "boomB"], true) ∧
    okCAlerter ∈ panicMgr.alerters ∧
    okCAlerter.Name ∉ (["okA", "boomB"] : List String) := by
  refine ⟨rfl, by simp [panicMgr], by decide⟩

/-- C3 amended: a provider Send that returns an error (rather than
panicking) never prevents delivery to any other registered provider, and the
error is not surfaced to the caller: whenever an alert is dispatched and no
registered provider's Send panics on it, every registered provider receives
the alert (in particular the ones after an error-returning provider) and the
process does not crash. A panicking Send is not contained, as there is no
recover in the goroutine body. -/
theorem C3_fanout_error_isolation_amended (m : Manager) (now : Int) (p : Payload)
    (d : List String) (c : Bool)
    (hdisp : (m.Alert now p).2 = some (d, c))
    (hnp : ∀ a ∈ m.alerters, ∀ msg, a.Send p ≠ SendOutcome.panics msg) :
    d = m.alerters.map Alerter.Name ∧ c = false := by
  by_cases hc : (!m.config.Enabled || !(m.shouldAlert p.Level)) = true
  · simp [Manager.Alert, hc] at hdisp
  · by_cases hrl : m.isRateLimited now p = true
    · simp [Manager.Alert, hc, hrl] at hdisp
    · simp [Manager.Alert, hc, hrl, Manager.markAlerted] at hdisp
      rw [fanOut_no_panics m.alerters p hnp] at hdisp
      exact ⟨(congrArg Prod.fst hdisp).symm, (congrArg Prod.snd hdisp).symm⟩

theorem C3_fanout_error_isolation_amended_witness :
    (failMgr.Alert 0 basePayload).2 = some (["okA", "failB", "okC"], false) ∧
    ((["okA", "failB", "okC"] : List String) = failMgr.alerters.map Alerter.Name ∧
      false = false) := by
  refine ⟨rfl, ?_⟩
  refine C3_fanout_error_isolation_amended failMgr 0 basePayload
    ["okA", "failB", "okC"] false rfl ?_
  intro a ha msg
  simp [failMgr] at ha
  rcases ha with h | h | h <;> subst h <;>
    simp [okAlerter, failAlerter, okCAlerter]
